import Mathlib

/-!
Shallow embedding of the `lockfree_snowflake` crate.

Machine integers are modelled as `Nat` (unsigned) and `Int` (signed), with
explicit `% 2 ^ 64` where the Rust code can wrap.  `chrono` date-times are
modelled as an absolute instant in milliseconds together with a display
time-zone offset; `with_timezone` preserves the instant.  The injectable
time source (`Timestamp` trait) is modelled by passing the instant it
returns directly to `generate`; a multi-call run takes a stream
`Nat → DateTime` of returned instants.
-/

/-- Wrap-around modulus of the `u64` machine type. -/
def U64_MOD : Nat := 2 ^ 64

/-- Reinterpretation of a `u64` bit pattern as an `i64` (Rust `as i64`). -/
def i64_of_u64 (v : Nat) : Int :=
  if v < 2 ^ 63 then (v : Int) else (v : Int) - 2 ^ 64

/-- Reinterpretation of an `i64` value as a `u64` bit pattern (Rust `as u64`). -/
def u64_of_i64 (w : Int) : Nat :=
  (w % (2 ^ 64 : Int)).toNat

/-- Model of a `chrono::DateTime<Tz>`: an absolute instant (milliseconds on a
global timeline) plus the zone offset it is displayed in.  Two `DateTime`s
denote the same point in time iff their `instant`s agree. -/
structure DateTime where
  instant : Int
  offset : Int
deriving DecidableEq

/-- `chrono`'s `with_timezone`: changes the display zone, keeps the instant. -/
def DateTime.with_timezone (d : DateTime) (tz : Int) : DateTime :=
  ⟨d.instant, tz⟩

/- ---------- src/snow_flake_id.rs ---------- -/

/-- `SnowflakeIdError` from `src/snow_flake_id.rs`. -/
inductive SnowflakeIdError where
  | Timestamp
  | MachineId
  | Increment
deriving DecidableEq

/-- `MAX_TIMESTAMP: u64 = 0x03_ff_ff_ff_ff_ff`. -/
def MAX_TIMESTAMP : Nat := 0x03ffffffffff

/-- `MAX_MACHINE_ID: u16 = 0x03_ff`. -/
def MAX_MACHINE_ID : Nat := 0x03ff

/-- `MAX_INCLEMENT_ID: u16 = 0x0f_ff`. -/
def MAX_INCLEMENT_ID : Nat := 0x0fff

/-- `struct SnowflakeId(u64)`; `val` is the raw 64-bit value. -/
structure SnowflakeId where
  val : Nat
deriving DecidableEq

/-- `impl From<u64> for SnowflakeId`. -/
def SnowflakeId.from_u64 (value : Nat) : SnowflakeId :=
  ⟨value⟩

/-- `impl From<i64> for SnowflakeId`: `SnowflakeId(value as u64)`. -/
def SnowflakeId.from_i64 (value : Int) : SnowflakeId :=
  ⟨u64_of_i64 value⟩

/-- The bit packing done in the success branch of `SnowflakeId::new`:
`tmp = timestamp << 22; tmp |= machine_id << 12; tmp |= inclement`
(`<<` on `u64` wraps, hence the `% U64_MOD`). -/
def packVal (timestamp machine_id inclement : Nat) : Nat :=
  ((timestamp <<< 22) % U64_MOD ||| (machine_id <<< 12) % U64_MOD) ||| inclement

/-- `SnowflakeId::new`. -/
def SnowflakeId.new (timestamp machine_id inclement : Nat) :
    Except SnowflakeIdError SnowflakeId :=
  if timestamp > MAX_TIMESTAMP then
    .error .Timestamp
  else if machine_id > MAX_MACHINE_ID then
    .error .MachineId
  else if inclement > MAX_INCLEMENT_ID then
    .error .Increment
  else
    .ok (SnowflakeId.from_u64 (packVal timestamp machine_id inclement))

/-- `SnowflakeId::machine_id`: `((self.0 & 0x3F_F0_00) >> 12) as u16`. -/
def SnowflakeId.machine_id (id : SnowflakeId) : Nat :=
  (id.val &&& 0x3FF000) >>> 12

/-- `SnowflakeId::inclement`: `(self.0 & 0x0F_FF) as u16`. -/
def SnowflakeId.inclement (id : SnowflakeId) : Nat :=
  id.val &&& 0x0FFF

/-- `SnowflakeId::raw_timestamp`: `self.0 >> 22`. -/
def SnowflakeId.raw_timestamp (id : SnowflakeId) : Nat :=
  id.val >>> 22

/-- `SnowflakeId::as_u64`. -/
def SnowflakeId.as_u64 (id : SnowflakeId) : Nat :=
  id.val

/-- `SnowflakeId::as_i64`: `self.0 as i64`. -/
def SnowflakeId.as_i64 (id : SnowflakeId) : Int :=
  i64_of_u64 id.val

/-- `SnowflakeId::timestamp`: normalize the epoch to UTC, add
`Duration::milliseconds(self.raw_timestamp() as i64)`, convert to the
target zone. -/
def SnowflakeId.timestamp (id : SnowflakeId) (the_epoch : DateTime)
    (time_zone : Int) : DateTime :=
  let pivot := the_epoch.with_timezone 0
  let dur : Int := i64_of_u64 id.raw_timestamp
  DateTime.with_timezone ⟨pivot.instant + dur, pivot.offset⟩ time_zone

/-- `impl Hash for SnowflakeId` feeds exactly `self.0` to the hasher; the
hasher itself is abstracted as a function of the fed `u64`. -/
def SnowflakeId.hashWith (hasher : Nat → Nat) (id : SnowflakeId) : Nat :=
  hasher id.val

/- ---------- src/snowflake_error.rs ---------- -/

/-- `SnowflakeIdEGeneratorError` from `src/snowflake_error.rs`. -/
inductive SnowflakeIdEGeneratorError where
  | MachineIdOutOfRange
deriving DecidableEq

/- ---------- src/snowflake_id_generator.rs ---------- -/

/-- `struct SnowFlakeIdGenerator`: epoch (stored normalized to UTC), machine
id, and the atomic `recent` slot (a `u64` value).  The `timestamp: T` time
source field is modelled by passing the instants it returns to `generate`. -/
structure SnowFlakeIdGenerator where
  the_epoch : DateTime
  machine_id : Nat
  recent : Nat
deriving DecidableEq

/-- `MAX_MACHINE_ID: u16 = 1023` in `src/snowflake_id_generator.rs`. -/
def SnowFlakeIdGenerator.MAX_MACHINE_ID : Nat := 1023

/-- `MAX_INCLEMENT_NUMBER: u16 = 4095` in `src/snowflake_id_generator.rs`. -/
def SnowFlakeIdGenerator.MAX_INCLEMENT_NUMBER : Nat := 4095

/-- `SnowFlakeIdGenerator::new`. -/
def SnowFlakeIdGenerator.new (the_epoch : DateTime) (machine_id : Nat) :
    Except SnowflakeIdEGeneratorError SnowFlakeIdGenerator :=
  if machine_id > SnowFlakeIdGenerator.MAX_MACHINE_ID then
    .error .MachineIdOutOfRange
  else
    .ok ⟨the_epoch.with_timezone 0, machine_id, 0⟩

/-- `SnowFlakeIdGenerator::calc_timestamp`:
`(scr - self.the_epoch).num_milliseconds() as u64`. -/
def SnowFlakeIdGenerator.calc_timestamp (g : SnowFlakeIdGenerator)
    (scr : DateTime) : Nat :=
  u64_of_i64 (scr.instant - g.the_epoch.instant)

/-- `SnowFlakeIdGenerator::try_inclement`. -/
def SnowFlakeIdGenerator.try_inclement (scr : Nat) : Option Nat :=
  if scr ≥ SnowFlakeIdGenerator.MAX_INCLEMENT_NUMBER then
    none
  else
    some (scr + 1)

/-- The `let inclement = if pivot.raw_timestamp() == now { ... } else { 0 }`
selection inside `generate`, with the `?` on `try_inclement` made explicit
as `Option`. -/
def SnowFlakeIdGenerator.select_inclement (pivot : SnowflakeId) (now : Nat) :
    Option Nat :=
  if pivot.raw_timestamp = now then
    SnowFlakeIdGenerator.try_inclement pivot.inclement
  else
    some 0

/-- Outcome of one `generate` call: an issued identifier together with the
updated generator state, an empty (`None`) result with the unchanged state,
or a panic of the internal `unwrap`. -/
inductive GenResult where
  | issued (id : SnowflakeId) (g : SnowFlakeIdGenerator)
  | unavailable (g : SnowFlakeIdGenerator)
  | panicked
deriving DecidableEq

/-- `SnowFlakeIdGenerator::generate`, sequential (uncontended) semantics:
the compare-exchange succeeds exactly when the slot still equals the loaded
pivot, which in a single-caller run is always the case. -/
def SnowFlakeIdGenerator.generate (g : SnowFlakeIdGenerator) (scr : DateTime) :
    GenResult :=
  let pivot := SnowflakeId.from_u64 g.recent
  let now := g.calc_timestamp scr
  match SnowFlakeIdGenerator.select_inclement pivot now with
  | none => .unavailable g
  | some inclement =>
    match SnowflakeId.new now g.machine_id inclement with
    | .error _ => .panicked
    | .ok candidate =>
      if g.recent = pivot.as_u64 then
        .issued candidate { g with recent := candidate.as_u64 }
      else
        .unavailable g

/-- State after one `generate` call (the panicked state is never reached in
the runs we consider; it keeps the state unchanged). -/
def SnowFlakeIdGenerator.afterGen (g : SnowFlakeIdGenerator) (scr : DateTime) :
    SnowFlakeIdGenerator :=
  match g.generate scr with
  | .issued _ g2 => g2
  | .unavailable g2 => g2
  | .panicked => g

/-- State after `n` sequential `generate` calls, call `k` seeing the instant
`src k` from the time source. -/
def SnowFlakeIdGenerator.runGen (g : SnowFlakeIdGenerator)
    (src : Nat → DateTime) : Nat → SnowFlakeIdGenerator
  | 0 => g
  | n + 1 => (g.runGen src n).afterGen (src n)

/-- Identifiers issued by the first `n` sequential `generate` calls, in
order. -/
def SnowFlakeIdGenerator.issuedIds (g : SnowFlakeIdGenerator)
    (src : Nat → DateTime) : Nat → List SnowflakeId
  | 0 => []
  | n + 1 =>
    g.issuedIds src n ++
      match (g.runGen src n).generate (src n) with
      | .issued id _ => [id]
      | _ => []

/- ---------- arithmetic form of the codec ---------- -/

theorem shiftRight_and_distrib (x y k : Nat) :
    (x &&& y) >>> k = (x >>> k) &&& (y >>> k) := by
  apply Nat.eq_of_testBit_eq
  intro i
  simp [Nat.testBit_shiftRight, Nat.testBit_and]

theorem from_u64_val (v : Nat) : (SnowflakeId.from_u64 v).val = v :=
  rfl

theorem raw_timestamp_val (id : SnowflakeId) :
    id.raw_timestamp = id.val / 2 ^ 22 := by
  show id.val >>> 22 = id.val / 2 ^ 22
  exact Nat.shiftRight_eq_div_pow id.val 22

theorem inclement_val (id : SnowflakeId) :
    id.inclement = id.val % 2 ^ 12 := by
  show id.val &&& 0x0FFF = id.val % 2 ^ 12
  have h : (0x0FFF : Nat) = 2 ^ 12 - 1 := by norm_num
  rw [h, Nat.and_pow_two_sub_one_eq_mod]

theorem machine_id_val (id : SnowflakeId) :
    id.machine_id = id.val / 2 ^ 12 % 2 ^ 10 := by
  show (id.val &&& 0x3FF000) >>> 12 = id.val / 2 ^ 12 % 2 ^ 10
  rw [shiftRight_and_distrib]
  have h : (0x3FF000 : Nat) >>> 12 = 2 ^ 10 - 1 := by
    norm_num [Nat.shiftRight_eq_div_pow]
  rw [h, Nat.and_pow_two_sub_one_eq_mod, Nat.shiftRight_eq_div_pow]

theorem packVal_eq (t m s : Nat) (ht : t < 2 ^ 42) (hm : m < 2 ^ 10)
    (hs : s < 2 ^ 12) :
    packVal t m s = t * 2 ^ 22 + m * 2 ^ 12 + s := by
  have h1 : t * 2 ^ 22 < U64_MOD := by unfold U64_MOD; omega
  have h2 : m * 2 ^ 12 < U64_MOD := by unfold U64_MOD; omega
  have h3 : 2 ^ 12 * m + s < 2 ^ 22 := by omega
  unfold packVal
  rw [Nat.shiftLeft_eq, Nat.shiftLeft_eq, Nat.mod_eq_of_lt h1, Nat.mod_eq_of_lt h2,
    Nat.or_assoc, mul_comm m (2 ^ 12), ← Nat.mul_add_lt_is_or hs m,
    mul_comm t (2 ^ 22), ← Nat.mul_add_lt_is_or h3 t]
  ring

theorem packVal_lt (t m s : Nat) (ht : t < 2 ^ 42) (hm : m < 2 ^ 10)
    (hs : s < 2 ^ 12) :
    packVal t m s < 2 ^ 64 := by
  rw [packVal_eq t m s ht hm hs]
  omega

theorem new_ok (t m s : Nat) (ht : t ≤ MAX_TIMESTAMP) (hm : m ≤ MAX_MACHINE_ID)
    (hs : s ≤ MAX_INCLEMENT_ID) :
    SnowflakeId.new t m s = .ok (SnowflakeId.from_u64 (packVal t m s)) := by
  simp only [MAX_TIMESTAMP, MAX_MACHINE_ID, MAX_INCLEMENT_ID] at ht hm hs
  unfold SnowflakeId.new
  rw [if_neg (by simp only [MAX_TIMESTAMP]; omega),
    if_neg (by simp only [MAX_MACHINE_ID]; omega),
    if_neg (by simp only [MAX_INCLEMENT_ID]; omega)]

theorem decode_pack_raw (t m s : Nat) (ht : t < 2 ^ 42) (hm : m < 2 ^ 10)
    (hs : s < 2 ^ 12) :
    (SnowflakeId.from_u64 (packVal t m s)).raw_timestamp = t := by
  rw [raw_timestamp_val, from_u64_val, packVal_eq t m s ht hm hs]
  omega

theorem decode_pack_machine (t m s : Nat) (ht : t < 2 ^ 42) (hm : m < 2 ^ 10)
    (hs : s < 2 ^ 12) :
    (SnowflakeId.from_u64 (packVal t m s)).machine_id = m := by
  rw [machine_id_val, from_u64_val, packVal_eq t m s ht hm hs]
  omega

theorem decode_pack_inclement (t m s : Nat) (ht : t < 2 ^ 42) (hm : m < 2 ^ 10)
    (hs : s < 2 ^ 12) :
    (SnowflakeId.from_u64 (packVal t m s)).inclement = s := by
  rw [inclement_val, from_u64_val, packVal_eq t m s ht hm hs]
  omega

/- ---------- claims about the identifier codec ---------- -/

/-- C2: for every timestamp within the 42-bit max, machine id within the
10-bit max and sequence within the 12-bit max, `SnowflakeId::new` succeeds
and `raw_timestamp` / `machine_id` / `inclement` on the result return the
three arguments unchanged (decode of construct is the identity). -/
theorem C2_new_decode_roundtrip (t m s : Nat) (ht : t ≤ MAX_TIMESTAMP)
    (hm : m ≤ MAX_MACHINE_ID) (hs : s ≤ MAX_INCLEMENT_ID) :
    ∃ id, SnowflakeId.new t m s = .ok id ∧
      id.raw_timestamp = t ∧ id.machine_id = m ∧ id.inclement = s := by
  have ht2 : t < 2 ^ 42 := by simp only [MAX_TIMESTAMP] at ht; omega
  have hm2 : m < 2 ^ 10 := by simp only [MAX_MACHINE_ID] at hm; omega
  have hs2 : s < 2 ^ 12 := by simp only [MAX_INCLEMENT_ID] at hs; omega
  exact ⟨_, new_ok t m s ht hm hs, decode_pack_raw t m s ht2 hm2 hs2,
    decode_pack_machine t m s ht2 hm2 hs2, decode_pack_inclement t m s ht2 hm2 hs2⟩

/-- Witness for C2 at the sample triple used by the crate's tests. -/
theorem C2_new_decode_roundtrip_witness :
    ∃ id, SnowflakeId.new 41944705796 169 7 = .ok id ∧
      id.raw_timestamp = 41944705796 ∧ id.machine_id = 169 ∧ id.inclement = 7 :=
  C2_new_decode_roundtrip 41944705796 169 7 (by decide) (by decide) (by decide)

/-- C4: `SnowflakeId::new` validates timestamp, then machine id, then
sequence, and returns the error of the first violated field, independently
of the validity of the later fields. -/
theorem C4_new_validation_order (t m s : Nat) :
    (t > MAX_TIMESTAMP → SnowflakeId.new t m s = .error .Timestamp) ∧
    (t ≤ MAX_TIMESTAMP → m > MAX_MACHINE_ID →
      SnowflakeId.new t m s = .error .MachineId) ∧
    (t ≤ MAX_TIMESTAMP → m ≤ MAX_MACHINE_ID → s > MAX_INCLEMENT_ID →
      SnowflakeId.new t m s = .error .Increment) := by
  unfold SnowflakeId.new
  refine ⟨fun h1 => ?_, fun h1 h2 => ?_, fun h1 h2 h3 => ?_⟩
  · rw [if_pos h1]
  · rw [if_neg (by omega), if_pos h2]
  · rw [if_neg (by omega), if_neg (by omega), if_pos h3]

/-- Witness for C4: each overflowing field is reported even when the other
two fields are themselves invalid (first two cases) or valid (last case). -/
theorem C4_new_validation_order_witness :
    SnowflakeId.new 4398046511104 1024 4096 = .error .Timestamp ∧
    SnowflakeId.new 0 1024 4096 = .error .MachineId ∧
    SnowflakeId.new 0 0 4096 = .error .Increment :=
  ⟨(C4_new_validation_order 4398046511104 1024 4096).1 (by decide),
   (C4_new_validation_order 0 1024 4096).2.1 (by decide) (by decide),
   (C4_new_validation_order 0 0 4096).2.2 (by decide) (by decide) (by decide)⟩

/-- C5: identifiers built from strictly increasing timestamps are strictly
increasing as raw 64-bit values, for all machine ids and sequences within
their maxima. -/
theorem C5_sort_by_timestamp (t1 t2 m1 m2 s1 s2 : Nat) (id1 id2 : SnowflakeId)
    (ht1 : t1 ≤ MAX_TIMESTAMP) (ht2 : t2 ≤ MAX_TIMESTAMP)
    (hm1 : m1 ≤ MAX_MACHINE_ID) (hm2 : m2 ≤ MAX_MACHINE_ID)
    (hs1 : s1 ≤ MAX_INCLEMENT_ID) (hs2 : s2 ≤ MAX_INCLEMENT_ID)
    (hlt : t1 < t2)
    (h1 : SnowflakeId.new t1 m1 s1 = .ok id1)
    (h2 : SnowflakeId.new t2 m2 s2 = .ok id2) :
    id1.as_u64 < id2.as_u64 := by
  have ha : t1 < 2 ^ 42 := by simp only [MAX_TIMESTAMP] at ht1; omega
  have hb : t2 < 2 ^ 42 := by simp only [MAX_TIMESTAMP] at ht2; omega
  have hc : m1 < 2 ^ 10 := by simp only [MAX_MACHINE_ID] at hm1; omega
  have hd : m2 < 2 ^ 10 := by simp only [MAX_MACHINE_ID] at hm2; omega
  have he : s1 < 2 ^ 12 := by simp only [MAX_INCLEMENT_ID] at hs1; omega
  have hf : s2 < 2 ^ 12 := by simp only [MAX_INCLEMENT_ID] at hs2; omega
  rw [new_ok t1 m1 s1 ht1 hm1 hs1] at h1
  rw [new_ok t2 m2 s2 ht2 hm2 hs2] at h2
  injection h1 with h1
  injection h2 with h2
  rw [← h1, ← h2]
  show packVal t1 m1 s1 < packVal t2 m2 s2
  rw [packVal_eq t1 m1 s1 ha hc he, packVal_eq t2 m2 s2 hb hd hf]
  omega

/-- Witness for C5: the largest identifier of millisecond 0 is below the
smallest identifier of millisecond 1. -/
theorem C5_sort_by_timestamp_witness :
    (SnowflakeId.from_u64 4194303).as_u64 < (SnowflakeId.from_u64 4194304).as_u64 :=
  C5_sort_by_timestamp 0 1 1023 0 4095 0 (SnowflakeId.from_u64 4194303)
    (SnowflakeId.from_u64 4194304) (by decide) (by decide) (by decide) (by decide)
    (by decide) (by decide) (by decide) (by rfl) (by rfl)

/-- C6: `From<u64>` / `as_u64` and `From<i64>` / `as_i64` are mutually
inverse bit reinterpretations on the full 64-bit ranges, and every 64-bit
pattern decodes to fields within the three field maxima. -/
theorem C6_bit_reinterpretation (v : Nat) (w : Int) (hv : v < 2 ^ 64)
    (hw1 : -(2 ^ 63) ≤ w) (hw2 : w < 2 ^ 63) :
    (SnowflakeId.from_u64 v).as_u64 = v ∧
    (SnowflakeId.from_i64 w).as_i64 = w ∧
    (SnowflakeId.from_u64 v).machine_id ≤ MAX_MACHINE_ID ∧
    (SnowflakeId.from_u64 v).inclement ≤ MAX_INCLEMENT_ID ∧
    (SnowflakeId.from_u64 v).raw_timestamp ≤ MAX_TIMESTAMP := by
  refine ⟨rfl, ?_, ?_, ?_, ?_⟩
  · simp only [SnowflakeId.from_i64, SnowflakeId.as_i64, u64_of_i64, i64_of_u64]
    split <;> omega
  · rw [machine_id_val, from_u64_val]
    simp only [MAX_MACHINE_ID]
    omega
  · rw [inclement_val, from_u64_val]
    simp only [MAX_INCLEMENT_ID]
    omega
  · rw [raw_timestamp_val, from_u64_val]
    simp only [MAX_TIMESTAMP]
    omega

/-- Witness for C6 at the all-ones pattern and at the negative value -1. -/
theorem C6_bit_reinterpretation_witness :
    (SnowflakeId.from_u64 18446744073709551615).as_u64 = 18446744073709551615 ∧
    (SnowflakeId.from_i64 (-1)).as_i64 = -1 ∧
    (SnowflakeId.from_u64 18446744073709551615).machine_id ≤ MAX_MACHINE_ID ∧
    (SnowflakeId.from_u64 18446744073709551615).inclement ≤ MAX_INCLEMENT_ID ∧
    (SnowflakeId.from_u64 18446744073709551615).raw_timestamp ≤ MAX_TIMESTAMP :=
  C6_bit_reinterpretation 18446744073709551615 (-1) (by decide) (by decide)
    (by decide)

/-- C7: equality of identifiers is exactly equality of the raw 64-bit
values, hashing feeds exactly the raw value to the hasher (so equal raw
values hash identically), and any two identifiers are either equal or
strictly ordered by their numeric 64-bit value. -/
theorem C7_eq_hash_order (a b : SnowflakeId) :
    (a = b ↔ a.as_u64 = b.as_u64) ∧
    (∀ hasher : Nat → Nat, a.as_u64 = b.as_u64 →
      SnowflakeId.hashWith hasher a = SnowflakeId.hashWith hasher b) ∧
    (a = b ∨ a.as_u64 < b.as_u64 ∨ b.as_u64 < a.as_u64) := by
  obtain ⟨va⟩ := a
  obtain ⟨vb⟩ := b
  refine ⟨⟨fun h => by rw [h], fun h => congrArg SnowflakeId.mk h⟩,
    fun hasher h => congrArg hasher h, ?_⟩
  rcases Nat.lt_trichotomy va vb with h | h | h
  · exact Or.inr (Or.inl h)
  · exact Or.inl (congrArg SnowflakeId.mk h)
  · exact Or.inr (Or.inr h)

/-- Witness for C7 on the pair of raw values 666324 and 52. -/
theorem C7_eq_hash_order_witness :
    (SnowflakeId.from_u64 666324 = SnowflakeId.from_u64 666324) ∧
    SnowflakeId.hashWith (fun x => x + 3) (SnowflakeId.from_u64 666324) =
      SnowflakeId.hashWith (fun x => x + 3) (SnowflakeId.from_u64 666324) ∧
    (SnowflakeId.from_u64 666324 = SnowflakeId.from_u64 52 ∨
      (SnowflakeId.from_u64 666324).as_u64 < (SnowflakeId.from_u64 52).as_u64 ∨
      (SnowflakeId.from_u64 52).as_u64 < (SnowflakeId.from_u64 666324).as_u64) :=
  ⟨(C7_eq_hash_order (SnowflakeId.from_u64 666324) (SnowflakeId.from_u64 666324)).1.mpr
      rfl,
   (C7_eq_hash_order (SnowflakeId.from_u64 666324) (SnowflakeId.from_u64 666324)).2.1
      (fun x => x + 3) rfl,
   (C7_eq_hash_order (SnowflakeId.from_u64 666324) (SnowflakeId.from_u64 52)).2.2⟩

/-- C8: the generator constructor fails with `MachineIdOutOfRange` exactly
when the machine id exceeds 1023, and on success stores the epoch
normalized to UTC, the given machine id, and a slot initialized to zero. -/
theorem C8_generator_new (e : DateTime) (m : Nat) :
    (SnowFlakeIdGenerator.new e m = .error .MachineIdOutOfRange ↔ m > 1023) ∧
    (m ≤ 1023 → SnowFlakeIdGenerator.new e m =
      .ok ⟨e.with_timezone 0, m, 0⟩) := by
  unfold SnowFlakeIdGenerator.new SnowFlakeIdGenerator.MAX_MACHINE_ID
  refine ⟨⟨fun h => ?_, fun h => by rw [if_pos h]⟩, fun h => by rw [if_neg (by omega)]⟩
  by_contra hm
  rw [if_neg (by omega)] at h
  exact absurd h (by simp)

/-- Witness for C8: machine id 1024 fails, machine id 1023 succeeds with the
documented initial state. -/
theorem C8_generator_new_witness :
    (SnowFlakeIdGenerator.new ⟨77, 9⟩ 1024 = .error .MachineIdOutOfRange) ∧
    SnowFlakeIdGenerator.new ⟨77, 9⟩ 1023 = .ok ⟨⟨77, 0⟩, 1023, 0⟩ :=
  ⟨(C8_generator_new ⟨77, 9⟩ 1024).1.mpr (by decide),
   (C8_generator_new ⟨77, 9⟩ 1023).2 (by decide)⟩

/-- C9: `timestamp` returns the epoch instant plus `raw_timestamp`
milliseconds, displayed in the requested zone; the denoted instant does not
depend on the target zone nor on the zone in which the epoch was supplied. -/
theorem C9_calendar_timestamp (id : SnowflakeId) (hv : id.val < 2 ^ 64)
    (e1 e2 : DateTime) (tz tz2 : Int) (he : e1.instant = e2.instant) :
    (id.timestamp e1 tz).instant = e1.instant + (id.raw_timestamp : Int) ∧
    (id.timestamp e1 tz).offset = tz ∧
    (id.timestamp e1 tz).instant = (id.timestamp e1 tz2).instant ∧
    id.timestamp e1 tz = id.timestamp e2 tz := by
  have hraw : id.raw_timestamp < 2 ^ 63 := by
    rw [raw_timestamp_val]
    omega
  have hdur : i64_of_u64 id.raw_timestamp = (id.raw_timestamp : Int) := by
    unfold i64_of_u64
    rw [if_pos hraw]
  refine ⟨?_, rfl, rfl, ?_⟩
  · simp only [SnowflakeId.timestamp, DateTime.with_timezone, hdur]
  · simp only [SnowflakeId.timestamp, DateTime.with_timezone, he]

/-- Witness for C9 with a sample identifier, two representations of the
same epoch instant in different zones, and two target zones. -/
theorem C9_calendar_timestamp_witness :
    ((SnowflakeId.from_u64 175928847299678215).timestamp ⟨1420070400000, 3600⟩ 9).instant =
      1420070400000 + ((SnowflakeId.from_u64 175928847299678215).raw_timestamp : Int) ∧
    ((SnowflakeId.from_u64 175928847299678215).timestamp ⟨1420070400000, 3600⟩ 9).offset = 9 ∧
    ((SnowflakeId.from_u64 175928847299678215).timestamp ⟨1420070400000, 3600⟩ 9).instant =
      ((SnowflakeId.from_u64 175928847299678215).timestamp ⟨1420070400000, 3600⟩ 0).instant ∧
    (SnowflakeId.from_u64 175928847299678215).timestamp ⟨1420070400000, 3600⟩ 9 =
      (SnowflakeId.from_u64 175928847299678215).timestamp ⟨1420070400000, 0⟩ 9 :=
  C9_calendar_timestamp (SnowflakeId.from_u64 175928847299678215) (by decide)
    ⟨1420070400000, 3600⟩ ⟨1420070400000, 0⟩ 9 0 (by decide)

/- ---------- generator step lemmas ---------- -/

theorem MAX_TIMESTAMP_eq : MAX_TIMESTAMP = 2 ^ 42 - 1 := by decide

theorem MAX_MACHINE_ID_eq : MAX_MACHINE_ID = 2 ^ 10 - 1 := by decide

theorem MAX_INCLEMENT_ID_eq : MAX_INCLEMENT_ID = 2 ^ 12 - 1 := by decide

theorem select_reset (pivot : SnowflakeId) (now : Nat)
    (h : pivot.raw_timestamp ≠ now) :
    SnowFlakeIdGenerator.select_inclement pivot now = some 0 := by
  unfold SnowFlakeIdGenerator.select_inclement
  rw [if_neg h]

theorem select_next (pivot : SnowflakeId) (now : Nat)
    (h : pivot.raw_timestamp = now) (h2 : pivot.inclement < 4095) :
    SnowFlakeIdGenerator.select_inclement pivot now = some (pivot.inclement + 1) := by
  unfold SnowFlakeIdGenerator.select_inclement SnowFlakeIdGenerator.try_inclement
    SnowFlakeIdGenerator.MAX_INCLEMENT_NUMBER
  rw [if_pos h, if_neg (by omega)]

theorem select_full (pivot : SnowflakeId) (now : Nat)
    (h : pivot.raw_timestamp = now) (h2 : 4095 ≤ pivot.inclement) :
    SnowFlakeIdGenerator.select_inclement pivot now = none := by
  unfold SnowFlakeIdGenerator.select_inclement SnowFlakeIdGenerator.try_inclement
    SnowFlakeIdGenerator.MAX_INCLEMENT_NUMBER
  rw [if_pos h, if_pos (by omega)]

theorem select_bound (pivot : SnowflakeId) (now inc : Nat)
    (h : SnowFlakeIdGenerator.select_inclement pivot now = some inc) :
    inc ≤ MAX_INCLEMENT_ID := by
  have hp : pivot.inclement ≤ 4095 := by
    rw [inclement_val]
    omega
  unfold SnowFlakeIdGenerator.select_inclement SnowFlakeIdGenerator.try_inclement
    SnowFlakeIdGenerator.MAX_INCLEMENT_NUMBER at h
  rw [MAX_INCLEMENT_ID_eq]
  split at h
  · split at h
    · exact absurd h (by simp)
    · injection h with h
      omega
  · injection h with h
    omega

theorem generate_unavailable (g : SnowFlakeIdGenerator) (scr : DateTime)
    (hsel : SnowFlakeIdGenerator.select_inclement (SnowflakeId.from_u64 g.recent)
      (g.calc_timestamp scr) = none) :
    g.generate scr = .unavailable g := by
  simp only [SnowFlakeIdGenerator.generate]
  rw [hsel]

theorem generate_issued (g : SnowFlakeIdGenerator) (scr : DateTime) (inc : Nat)
    (hsel : SnowFlakeIdGenerator.select_inclement (SnowflakeId.from_u64 g.recent)
      (g.calc_timestamp scr) = some inc)
    (hnow : g.calc_timestamp scr ≤ MAX_TIMESTAMP)
    (hm : g.machine_id ≤ MAX_MACHINE_ID) (hinc : inc ≤ MAX_INCLEMENT_ID) :
    g.generate scr = .issued
      (SnowflakeId.from_u64 (packVal (g.calc_timestamp scr) g.machine_id inc))
      { g with recent := packVal (g.calc_timestamp scr) g.machine_id inc } := by
  have hsel2 : SnowFlakeIdGenerator.select_inclement ⟨g.recent⟩
      (g.calc_timestamp scr) = some inc := hsel
  simp only [SnowFlakeIdGenerator.generate, SnowflakeId.from_u64, SnowflakeId.as_u64,
    hsel2, new_ok _ _ _ hnow hm hinc, if_true]

theorem generate_panicked (g : SnowFlakeIdGenerator) (scr : DateTime) (inc : Nat)
    (hsel : SnowFlakeIdGenerator.select_inclement (SnowflakeId.from_u64 g.recent)
      (g.calc_timestamp scr) = some inc)
    (hnow : g.calc_timestamp scr > MAX_TIMESTAMP) :
    g.generate scr = .panicked := by
  simp only [SnowFlakeIdGenerator.generate, hsel]
  unfold SnowflakeId.new
  rw [if_pos hnow]

theorem generate_panicked_machine (g : SnowFlakeIdGenerator) (scr : DateTime)
    (inc : Nat)
    (hsel : SnowFlakeIdGenerator.select_inclement (SnowflakeId.from_u64 g.recent)
      (g.calc_timestamp scr) = some inc)
    (hnow : g.calc_timestamp scr ≤ MAX_TIMESTAMP)
    (hm : g.machine_id > MAX_MACHINE_ID) :
    g.generate scr = .panicked := by
  simp only [SnowFlakeIdGenerator.generate, hsel]
  unfold SnowflakeId.new
  rw [if_neg (by omega), if_pos hm]

theorem generate_cases (g : SnowFlakeIdGenerator) (scr : DateTime) :
    g.generate scr = .panicked ∨
    g.generate scr = .unavailable g ∨
    ∃ v, g.generate scr = .issued (SnowflakeId.from_u64 v) { g with recent := v } := by
  rcases hsel : SnowFlakeIdGenerator.select_inclement (SnowflakeId.from_u64 g.recent)
      (g.calc_timestamp scr) with _ | inc
  · exact Or.inr (Or.inl (generate_unavailable g scr hsel))
  · by_cases hnow : g.calc_timestamp scr ≤ MAX_TIMESTAMP
    · by_cases hm : g.machine_id ≤ MAX_MACHINE_ID
      · exact Or.inr (Or.inr ⟨_,
          generate_issued g scr inc hsel hnow hm (select_bound _ _ _ hsel)⟩)
      · exact Or.inl (generate_panicked_machine g scr inc hsel hnow (by omega))
    · exact Or.inl (generate_panicked g scr inc hsel (by omega))

theorem afterGen_fields (g : SnowFlakeIdGenerator) (scr : DateTime) :
    (g.afterGen scr).the_epoch = g.the_epoch ∧
    (g.afterGen scr).machine_id = g.machine_id := by
  unfold SnowFlakeIdGenerator.afterGen
  rcases generate_cases g scr with h | h | ⟨v, h⟩ <;> rw [h] <;> exact ⟨rfl, rfl⟩

theorem runGen_fields (g : SnowFlakeIdGenerator) (src : Nat → DateTime) :
    ∀ n, (g.runGen src n).the_epoch = g.the_epoch ∧
      (g.runGen src n).machine_id = g.machine_id := by
  intro n
  induction n with
  | zero => exact ⟨rfl, rfl⟩
  | succ k ih =>
    have h := afterGen_fields (g.runGen src k) (src k)
    simp only [SnowFlakeIdGenerator.runGen]
    exact ⟨h.1.trans ih.1, h.2.trans ih.2⟩

theorem calc_congr (g1 g2 : SnowFlakeIdGenerator) (scr : DateTime)
    (h : g1.the_epoch = g2.the_epoch) :
    g1.calc_timestamp scr = g2.calc_timestamp scr := by
  unfold SnowFlakeIdGenerator.calc_timestamp
  rw [h]

/- ---------- claims about the generator ---------- -/

/-- C3 (amended): the internal `unwrap` of `SnowflakeId::new` inside
`generate` never panics provided the millisecond offset computed from the
time source's instant is within the 42-bit timestamp max (the machine id is
pre-validated and the chosen sequence is always within the 12-bit max); the
claim's unconditional form fails, see the counterexample. -/
theorem C3_generate_no_panic (g : SnowFlakeIdGenerator) (scr : DateTime)
    (hm : g.machine_id ≤ MAX_MACHINE_ID)
    (hnow : g.calc_timestamp scr ≤ MAX_TIMESTAMP) :
    g.generate scr ≠ .panicked := by
  rcases hsel : SnowFlakeIdGenerator.select_inclement (SnowflakeId.from_u64 g.recent)
      (g.calc_timestamp scr) with _ | inc
  · rw [generate_unavailable g scr hsel]
    exact fun h => GenResult.noConfusion h
  · rw [generate_issued g scr inc hsel hnow hm (select_bound _ _ _ hsel)]
    exact fun h => GenResult.noConfusion h

/-- C3 counterexample: a generator with machine id 0 and epoch instant 0
whose time source returns the instant 2^42 milliseconds after the epoch:
the computed offset `now = 2 ^ 42` exceeds the 42-bit max, `SnowflakeId::new`
returns an error, and the internal `unwrap` panics. -/
theorem C3_generate_no_panic_counterexample :
    SnowFlakeIdGenerator.generate ⟨⟨0, 0⟩, 0, 0⟩ ⟨4398046511104, 0⟩ = .panicked := by
  rfl

/-- Witness for C3 (amended) at a generator with machine id 1 and a time
source instant 123 milliseconds after the epoch. -/
theorem C3_generate_no_panic_witness :
    SnowFlakeIdGenerator.generate ⟨⟨0, 0⟩, 1, 0⟩ ⟨123, 0⟩ ≠ .panicked :=
  C3_generate_no_panic ⟨⟨0, 0⟩, 1, 0⟩ ⟨123, 0⟩ (by decide) (by decide)

theorem afterGen_issued (g : SnowFlakeIdGenerator) (scr : DateTime)
    (id : SnowflakeId) (g2 : SnowFlakeIdGenerator)
    (h : g.generate scr = .issued id g2) :
    g.afterGen scr = g2 := by
  unfold SnowFlakeIdGenerator.afterGen
  rw [h]

theorem afterGen_unavailable (g : SnowFlakeIdGenerator) (scr : DateTime)
    (g2 : SnowFlakeIdGenerator) (h : g.generate scr = .unavailable g2) :
    g.afterGen scr = g2 := by
  unfold SnowFlakeIdGenerator.afterGen
  rw [h]

theorem scenario_step_zero (g : SnowFlakeIdGenerator) (inst : DateTime)
    (hm : g.machine_id ≤ MAX_MACHINE_ID) (hrec : g.recent = 0)
    (h1 : 1 ≤ g.calc_timestamp inst) (h2 : g.calc_timestamp inst ≤ MAX_TIMESTAMP) :
    g.generate inst = .issued
      (SnowflakeId.from_u64 (packVal (g.calc_timestamp inst) g.machine_id 0))
      { g with recent := packVal (g.calc_timestamp inst) g.machine_id 0 } := by
  have hne : (SnowflakeId.from_u64 g.recent).raw_timestamp ≠ g.calc_timestamp inst := by
    rw [raw_timestamp_val, from_u64_val, hrec]
    omega
  exact generate_issued g inst 0 (select_reset _ _ hne) h2 hm (Nat.zero_le _)

theorem scenario_step_succ (g : SnowFlakeIdGenerator) (inst : DateTime) (k : Nat)
    (hm : g.machine_id ≤ MAX_MACHINE_ID)
    (hrec : g.recent = packVal (g.calc_timestamp inst) g.machine_id k)
    (hk : k < 4095) (h2 : g.calc_timestamp inst ≤ MAX_TIMESTAMP) :
    g.generate inst = .issued
      (SnowflakeId.from_u64 (packVal (g.calc_timestamp inst) g.machine_id (k + 1)))
      { g with recent := packVal (g.calc_timestamp inst) g.machine_id (k + 1) } := by
  have hb1 : g.calc_timestamp inst < 2 ^ 42 := by rw [MAX_TIMESTAMP_eq] at h2; omega
  have hb2 : g.machine_id < 2 ^ 10 := by rw [MAX_MACHINE_ID_eq] at hm; omega
  have hb3 : k < 2 ^ 12 := by omega
  have hraw : (SnowflakeId.from_u64 g.recent).raw_timestamp = g.calc_timestamp inst := by
    rw [hrec]
    exact decode_pack_raw _ _ _ hb1 hb2 hb3
  have hincl : (SnowflakeId.from_u64 g.recent).inclement = k := by
    rw [hrec]
    exact decode_pack_inclement _ _ _ hb1 hb2 hb3
  have hsel := select_next _ _ hraw (by rw [hincl]; omega)
  rw [hincl] at hsel
  exact generate_issued g inst (k + 1) hsel h2 hm (by rw [MAX_INCLEMENT_ID_eq]; omega)

theorem scenario_step_full (g : SnowFlakeIdGenerator) (inst : DateTime)
    (hm : g.machine_id ≤ MAX_MACHINE_ID)
    (hrec : g.recent = packVal (g.calc_timestamp inst) g.machine_id 4095)
    (h2 : g.calc_timestamp inst ≤ MAX_TIMESTAMP) :
    g.generate inst = .unavailable g := by
  have hb1 : g.calc_timestamp inst < 2 ^ 42 := by rw [MAX_TIMESTAMP_eq] at h2; omega
  have hb2 : g.machine_id < 2 ^ 10 := by rw [MAX_MACHINE_ID_eq] at hm; omega
  have hraw : (SnowflakeId.from_u64 g.recent).raw_timestamp = g.calc_timestamp inst := by
    rw [hrec]
    exact decode_pack_raw _ _ _ hb1 hb2 (by omega)
  have hincl : (SnowflakeId.from_u64 g.recent).inclement = 4095 := by
    rw [hrec]
    exact decode_pack_inclement _ _ _ hb1 hb2 (by omega)
  exact generate_unavailable g inst (select_full _ _ hraw (by omega))

theorem scenario_recent (ep inst : DateTime) (m : Nat) (hm : m ≤ MAX_MACHINE_ID)
    (h1 : 1 ≤ SnowFlakeIdGenerator.calc_timestamp ⟨ep, m, 0⟩ inst)
    (h2 : SnowFlakeIdGenerator.calc_timestamp ⟨ep, m, 0⟩ inst ≤ MAX_TIMESTAMP) :
    ∀ n, n ≤ 4096 →
      (SnowFlakeIdGenerator.runGen ⟨ep, m, 0⟩ (fun _ => inst) n).recent =
        if n = 0 then 0
        else packVal (SnowFlakeIdGenerator.calc_timestamp ⟨ep, m, 0⟩ inst) m (n - 1) := by
  intro n
  induction n with
  | zero => intro _; rfl
  | succ k ih =>
    intro hn
    have hrec := ih (by omega)
    have hf := runGen_fields (⟨ep, m, 0⟩ : SnowFlakeIdGenerator) (fun _ => inst) k
    have hcalc : (SnowFlakeIdGenerator.runGen ⟨ep, m, 0⟩ (fun _ => inst) k).calc_timestamp inst
        = SnowFlakeIdGenerator.calc_timestamp ⟨ep, m, 0⟩ inst :=
      calc_congr _ _ inst (by rw [hf.1])
    by_cases hk0 : k = 0
    · subst hk0
      have hstep := scenario_step_zero
        (SnowFlakeIdGenerator.runGen ⟨ep, m, 0⟩ (fun _ => inst) 0) inst
        (by rw [hf.2]; exact hm) (by simpa using hrec)
        (by rw [hcalc]; exact h1) (by rw [hcalc]; exact h2)
      simp only [SnowFlakeIdGenerator.runGen] at hstep ⊢
      rw [afterGen_issued _ _ _ _ hstep]
      simp
    · have hrec2 : (SnowFlakeIdGenerator.runGen ⟨ep, m, 0⟩ (fun _ => inst) k).recent
          = packVal (SnowFlakeIdGenerator.calc_timestamp ⟨ep, m, 0⟩ inst) m (k - 1) := by
        rw [hrec, if_neg hk0]
      have hstep := scenario_step_succ
        (SnowFlakeIdGenerator.runGen ⟨ep, m, 0⟩ (fun _ => inst) k) inst (k - 1)
        (by rw [hf.2]; exact hm) (by rw [hrec2, hcalc, hf.2]) (by omega)
        (by rw [hcalc]; exact h2)
      have hk1 : k - 1 + 1 = k := by omega
      rw [hk1] at hstep
      simp only [SnowFlakeIdGenerator.runGen]
      rw [afterGen_issued _ _ _ _ hstep]
      rw [if_neg (by omega : ¬ k + 1 = 0)]
      show packVal ((SnowFlakeIdGenerator.runGen ⟨ep, m, 0⟩ (fun _ => inst) k).calc_timestamp inst)
        (SnowFlakeIdGenerator.runGen ⟨ep, m, 0⟩ (fun _ => inst) k).machine_id k = _
      rw [hcalc, hf.2]
      simp

theorem scenario_call (ep inst : DateTime) (m : Nat) (hm : m ≤ MAX_MACHINE_ID)
    (h1 : 1 ≤ SnowFlakeIdGenerator.calc_timestamp ⟨ep, m, 0⟩ inst)
    (h2 : SnowFlakeIdGenerator.calc_timestamp ⟨ep, m, 0⟩ inst ≤ MAX_TIMESTAMP) :
    (∀ n, n ≤ 4095 →
      (SnowFlakeIdGenerator.runGen ⟨ep, m, 0⟩ (fun _ => inst) n).generate inst =
        .issued
          (SnowflakeId.from_u64
            (packVal (SnowFlakeIdGenerator.calc_timestamp ⟨ep, m, 0⟩ inst) m n))
          (SnowFlakeIdGenerator.runGen ⟨ep, m, 0⟩ (fun _ => inst) (n + 1))) ∧
    (SnowFlakeIdGenerator.runGen ⟨ep, m, 0⟩ (fun _ => inst) 4096).generate inst =
      .unavailable (SnowFlakeIdGenerator.runGen ⟨ep, m, 0⟩ (fun _ => inst) 4096) := by
  constructor
  · intro n hn
    have hrec := scenario_recent ep inst m hm h1 h2 n (by omega)
    have hf := runGen_fields (⟨ep, m, 0⟩ : SnowFlakeIdGenerator) (fun _ => inst) n
    have hcalc : (SnowFlakeIdGenerator.runGen ⟨ep, m, 0⟩ (fun _ => inst) n).calc_timestamp inst
        = SnowFlakeIdGenerator.calc_timestamp ⟨ep, m, 0⟩ inst :=
      calc_congr _ _ inst (by rw [hf.1])
    by_cases hn0 : n = 0
    · subst hn0
      have hstep := scenario_step_zero
        (SnowFlakeIdGenerator.runGen ⟨ep, m, 0⟩ (fun _ => inst) 0) inst
        (by rw [hf.2]; exact hm) (by simpa using hrec)
        (by rw [hcalc]; exact h1) (by rw [hcalc]; exact h2)
      rw [hstep, hcalc, hf.2]
      have hrun : SnowFlakeIdGenerator.runGen ⟨ep, m, 0⟩ (fun _ => inst) (0 + 1) =
          (SnowFlakeIdGenerator.runGen ⟨ep, m, 0⟩ (fun _ => inst) 0).afterGen inst := by
        simp only [SnowFlakeIdGenerator.runGen]
      rw [hrun, afterGen_issued _ _ _ _ hstep, hcalc, hf.2]
    · have hrec2 : (SnowFlakeIdGenerator.runGen ⟨ep, m, 0⟩ (fun _ => inst) n).recent
          = packVal (SnowFlakeIdGenerator.calc_timestamp ⟨ep, m, 0⟩ inst) m (n - 1) := by
        rw [hrec, if_neg hn0]
      have hstep := scenario_step_succ
        (SnowFlakeIdGenerator.runGen ⟨ep, m, 0⟩ (fun _ => inst) n) inst (n - 1)
        (by rw [hf.2]; exact hm) (by rw [hrec2, hcalc, hf.2]) (by omega)
        (by rw [hcalc]; exact h2)
      have hn1 : n - 1 + 1 = n := by omega
      rw [hn1] at hstep
      rw [hstep, hcalc, hf.2]
      have hrun : SnowFlakeIdGenerator.runGen ⟨ep, m, 0⟩ (fun _ => inst) (n + 1) =
          (SnowFlakeIdGenerator.runGen ⟨ep, m, 0⟩ (fun _ => inst) n).afterGen inst := by
        simp only [SnowFlakeIdGenerator.runGen]
      rw [hrun, afterGen_issued _ _ _ _ hstep, hcalc, hf.2]
  · have hrec := scenario_recent ep inst m hm h1 h2 4096 (by omega)
    have hf := runGen_fields (⟨ep, m, 0⟩ : SnowFlakeIdGenerator) (fun _ => inst) 4096
    have hcalc : (SnowFlakeIdGenerator.runGen ⟨ep, m, 0⟩ (fun _ => inst) 4096).calc_timestamp inst
        = SnowFlakeIdGenerator.calc_timestamp ⟨ep, m, 0⟩ inst :=
      calc_congr _ _ inst (by rw [hf.1])
    have hrec2 : (SnowFlakeIdGenerator.runGen ⟨ep, m, 0⟩ (fun _ => inst) 4096).recent
        = packVal (SnowFlakeIdGenerator.calc_timestamp ⟨ep, m, 0⟩ inst) m 4095 := by
      rw [hrec, if_neg (by omega)]
    exact scenario_step_full _ inst (by rw [hf.2]; exact hm)
      (by rw [hrec2, hcalc, hf.2]) (by rw [hcalc]; exact h2)

/-- C1 (amended): per call, if the computed offset equals the loaded
identifier's timestamp field then the chosen sequence is the loaded
sequence plus one, and at sequence 4095 the call returns `None` without
waiting; if they differ the chosen sequence is 0.  With a fixed time source
whose offset `now` satisfies `1 ≤ now ≤ 2 ^ 42 - 1`, the first 4096 calls
issue sequences 0..4095 in order sharing one timestamp offset and machine
id, and the 4097th call returns `None`.  (The unamended claim, which allows
`now = 0`, fails: see the counterexample.) -/
theorem C1_fixed_instant_run (g : SnowFlakeIdGenerator) (scr : DateTime)
    (hm : g.machine_id ≤ MAX_MACHINE_ID) (hrec : g.recent < 2 ^ 64)
    (ep inst : DateTime) (m : Nat) (hm2 : m ≤ MAX_MACHINE_ID)
    (h1 : 1 ≤ SnowFlakeIdGenerator.calc_timestamp ⟨ep, m, 0⟩ inst)
    (h2 : SnowFlakeIdGenerator.calc_timestamp ⟨ep, m, 0⟩ inst ≤ MAX_TIMESTAMP) :
    ((SnowflakeId.from_u64 g.recent).raw_timestamp = g.calc_timestamp scr →
      (SnowflakeId.from_u64 g.recent).inclement < 4095 →
      g.generate scr = .issued
        (SnowflakeId.from_u64 (packVal (g.calc_timestamp scr) g.machine_id
          ((SnowflakeId.from_u64 g.recent).inclement + 1)))
        { g with recent := (packVal (g.calc_timestamp scr) g.machine_id
          ((SnowflakeId.from_u64 g.recent).inclement + 1)) }) ∧
    ((SnowflakeId.from_u64 g.recent).raw_timestamp = g.calc_timestamp scr →
      (SnowflakeId.from_u64 g.recent).inclement = 4095 →
      g.generate scr = .unavailable g) ∧
    ((SnowflakeId.from_u64 g.recent).raw_timestamp ≠ g.calc_timestamp scr →
      SnowFlakeIdGenerator.select_inclement (SnowflakeId.from_u64 g.recent)
        (g.calc_timestamp scr) = some 0) ∧
    (∀ n, n ≤ 4095 → ∃ id,
      (SnowFlakeIdGenerator.runGen ⟨ep, m, 0⟩ (fun _ => inst) n).generate inst =
        .issued id (SnowFlakeIdGenerator.runGen ⟨ep, m, 0⟩ (fun _ => inst) (n + 1)) ∧
      id.inclement = n ∧
      id.raw_timestamp = SnowFlakeIdGenerator.calc_timestamp ⟨ep, m, 0⟩ inst ∧
      id.machine_id = m) ∧
    (SnowFlakeIdGenerator.runGen ⟨ep, m, 0⟩ (fun _ => inst) 4096).generate inst =
      .unavailable (SnowFlakeIdGenerator.runGen ⟨ep, m, 0⟩ (fun _ => inst) 4096) := by
  refine ⟨?_, ?_, ?_, ?_, (scenario_call ep inst m hm2 h1 h2).2⟩
  · intro hraw hinc
    have hnow : g.calc_timestamp scr ≤ MAX_TIMESTAMP := by
      rw [← hraw, raw_timestamp_val, from_u64_val, MAX_TIMESTAMP_eq]
      omega
    have hsel := select_next _ _ hraw hinc
    exact generate_issued g scr _ hsel hnow hm (by rw [MAX_INCLEMENT_ID_eq]; omega)
  · intro hraw hinc
    exact generate_unavailable g scr (select_full _ _ hraw (by omega))
  · intro hraw
    exact select_reset _ _ hraw
  · intro n hn
    have hcall := (scenario_call ep inst m hm2 h1 h2).1 n hn
    have hb1 : SnowFlakeIdGenerator.calc_timestamp ⟨ep, m, 0⟩ inst < 2 ^ 42 := by
      rw [MAX_TIMESTAMP_eq] at h2
      omega
    have hb2 : m < 2 ^ 10 := by
      rw [MAX_MACHINE_ID_eq] at hm2
      omega
    exact ⟨_, hcall, decode_pack_inclement _ _ _ hb1 hb2 (by omega),
      decode_pack_raw _ _ _ hb1 hb2 (by omega),
      decode_pack_machine _ _ _ hb1 hb2 (by omega)⟩

/-- C1 counterexample: with the fixed instant equal to the epoch the
computed offset is `now = 0`, which equals the zero slot's timestamp field,
so the very first call increments from the zero slot and issues sequence 1
— not 0 as the claim's fixed-instant scenario requires. -/
theorem C1_fixed_instant_run_counterexample :
    SnowFlakeIdGenerator.generate ⟨⟨0, 0⟩, 0, 0⟩ ⟨0, 0⟩ =
      .issued (SnowflakeId.from_u64 1) ⟨⟨0, 0⟩, 0, 1⟩ ∧
    (SnowflakeId.from_u64 1).inclement = 1 := by
  exact ⟨rfl, rfl⟩

/-- Witness for C1 (amended): the 4097th call of the fixed-instant scenario
returns the empty result, at epoch instant 0, machine id 0 and fixed time
source instant 1. -/
theorem C1_fixed_instant_run_witness :
    (SnowFlakeIdGenerator.runGen ⟨⟨0, 0⟩, 0, 0⟩ (fun _ => ⟨1, 0⟩) 4096).generate ⟨1, 0⟩ =
      .unavailable (SnowFlakeIdGenerator.runGen ⟨⟨0, 0⟩, 0, 0⟩ (fun _ => ⟨1, 0⟩) 4096) :=
  (C1_fixed_instant_run ⟨⟨0, 0⟩, 0, 0⟩ ⟨1, 0⟩ (by decide) (by decide) ⟨0, 0⟩ ⟨1, 0⟩ 0
    (by decide) (by decide) (by decide)).2.2.2.2

theorem calc_in_range (g : SnowFlakeIdGenerator) (d : DateTime)
    (hlo : g.the_epoch.instant ≤ d.instant)
    (hhi : d.instant ≤ g.the_epoch.instant + (2 ^ 42 - 1)) :
    g.calc_timestamp d = (d.instant - g.the_epoch.instant).toNat ∧
    g.calc_timestamp d ≤ MAX_TIMESTAMP := by
  unfold SnowFlakeIdGenerator.calc_timestamp u64_of_i64
  rw [MAX_TIMESTAMP_eq]
  constructor <;> omega

theorem step_case (g : SnowFlakeIdGenerator) (d : DateTime)
    (hm : g.machine_id ≤ MAX_MACHINE_ID)
    (hnow : g.calc_timestamp d ≤ MAX_TIMESTAMP)
    (hinv : g.recent = 0 ∨ ∃ t s, t ≤ g.calc_timestamp d ∧ s ≤ 4095 ∧
      g.recent = packVal t g.machine_id s) :
    (∃ inc, inc ≤ 4095 ∧ g.recent < packVal (g.calc_timestamp d) g.machine_id inc ∧
      g.generate d = .issued
        (SnowflakeId.from_u64 (packVal (g.calc_timestamp d) g.machine_id inc))
        { g with recent := packVal (g.calc_timestamp d) g.machine_id inc }) ∨
    g.generate d = .unavailable g := by
  have hb1 : g.calc_timestamp d < 2 ^ 42 := by rw [MAX_TIMESTAMP_eq] at hnow; omega
  have hb2 : g.machine_id < 2 ^ 10 := by rw [MAX_MACHINE_ID_eq] at hm; omega
  rcases hinv with h0 | ⟨t, s, hts, hs, hrec⟩
  · by_cases hz : g.calc_timestamp d = 0
    · left
      have hraw : (SnowflakeId.from_u64 g.recent).raw_timestamp = g.calc_timestamp d := by
        rw [raw_timestamp_val, from_u64_val, h0, hz]
        omega
      have hincl : (SnowflakeId.from_u64 g.recent).inclement = 0 := by
        rw [inclement_val, from_u64_val, h0]
        omega
      have hsel := select_next _ _ hraw (by rw [hincl]; omega)
      rw [hincl] at hsel
      refine ⟨1, by omega, ?_,
        generate_issued g d 1 hsel hnow hm (by rw [MAX_INCLEMENT_ID_eq]; omega)⟩
      rw [h0, packVal_eq _ _ _ hb1 hb2 (by omega)]
      omega
    · left
      have hraw : (SnowflakeId.from_u64 g.recent).raw_timestamp ≠ g.calc_timestamp d := by
        rw [raw_timestamp_val, from_u64_val, h0]
        omega
      refine ⟨0, by omega, ?_,
        generate_issued g d 0 (select_reset _ _ hraw) hnow hm (Nat.zero_le _)⟩
      rw [h0, packVal_eq _ _ _ hb1 hb2 (by omega)]
      omega
  · have hts2 : t < 2 ^ 42 := by omega
    have hraw : (SnowflakeId.from_u64 g.recent).raw_timestamp = t := by
      rw [hrec]
      exact decode_pack_raw _ _ _ hts2 hb2 (by omega)
    have hincl : (SnowflakeId.from_u64 g.recent).inclement = s := by
      rw [hrec]
      exact decode_pack_inclement _ _ _ hts2 hb2 (by omega)
    by_cases heq : t = g.calc_timestamp d
    · by_cases hsf : s = 4095
      · right
        exact generate_unavailable g d
          (select_full _ _ (hraw.trans heq) (by rw [hincl]; omega))
      · left
        have hsel := select_next _ _ (hraw.trans heq) (by rw [hincl]; omega)
        rw [hincl] at hsel
        refine ⟨s + 1, by omega, ?_,
          generate_issued g d (s + 1) hsel hnow hm (by rw [MAX_INCLEMENT_ID_eq]; omega)⟩
        rw [hrec, heq, packVal_eq _ _ _ hb1 hb2 (by omega),
          packVal_eq _ _ _ hb1 hb2 (by omega)]
        omega
    · left
      have hne : (SnowflakeId.from_u64 g.recent).raw_timestamp ≠ g.calc_timestamp d := by
        rw [hraw]
        exact heq
      refine ⟨0, by omega, ?_,
        generate_issued g d 0 (select_reset _ _ hne) hnow hm (Nat.zero_le _)⟩
      rw [hrec, packVal_eq _ _ _ hts2 hb2 (by omega),
        packVal_eq _ _ _ hb1 hb2 (by omega)]
      omega

theorem run_invariant (ep : DateTime) (m : Nat) (src : Nat → DateTime)
    (hm : m ≤ MAX_MACHINE_ID)
    (hlo : ∀ i, ep.instant ≤ (src i).instant)
    (hhi : ∀ i, (src i).instant ≤ ep.instant + (2 ^ 42 - 1))
    (hmono : ∀ i j, i ≤ j → (src i).instant ≤ (src j).instant) :
    ∀ n,
      ((SnowFlakeIdGenerator.runGen ⟨ep, m, 0⟩ src n).recent = 0 ∨
        ∃ k s, k < n ∧ s ≤ 4095 ∧
          (SnowFlakeIdGenerator.runGen ⟨ep, m, 0⟩ src n).recent =
            packVal (SnowFlakeIdGenerator.calc_timestamp ⟨ep, m, 0⟩ (src k)) m s) ∧
      (∀ id ∈ SnowFlakeIdGenerator.issuedIds ⟨ep, m, 0⟩ src n,
        id.as_u64 ≤ (SnowFlakeIdGenerator.runGen ⟨ep, m, 0⟩ src n).recent) ∧
      ((SnowFlakeIdGenerator.issuedIds ⟨ep, m, 0⟩ src n).map
        SnowflakeId.as_u64).Pairwise (· < ·) := by
  intro n
  induction n with
  | zero =>
    refine ⟨Or.inl rfl, ?_, List.Pairwise.nil⟩
    intro id hid
    cases hid
  | succ n ih =>
    obtain ⟨hinv, hbound, hpair⟩ := ih
    have hf := runGen_fields (⟨ep, m, 0⟩ : SnowFlakeIdGenerator) src n
    have hcalc : (SnowFlakeIdGenerator.runGen ⟨ep, m, 0⟩ src n).calc_timestamp (src n)
        = SnowFlakeIdGenerator.calc_timestamp ⟨ep, m, 0⟩ (src n) :=
      calc_congr _ _ _ (by rw [hf.1])
    have hrn : SnowFlakeIdGenerator.calc_timestamp ⟨ep, m, 0⟩ (src n) =
        ((src n).instant - ep.instant).toNat :=
      (calc_in_range ⟨ep, m, 0⟩ (src n) (hlo n) (hhi n)).1
    have hnow : (SnowFlakeIdGenerator.runGen ⟨ep, m, 0⟩ src n).calc_timestamp (src n)
        ≤ MAX_TIMESTAMP := by
      rw [hcalc]
      exact (calc_in_range ⟨ep, m, 0⟩ (src n) (hlo n) (hhi n)).2
    have hmono2 : ∀ k, k ≤ n → SnowFlakeIdGenerator.calc_timestamp ⟨ep, m, 0⟩ (src k)
        ≤ SnowFlakeIdGenerator.calc_timestamp ⟨ep, m, 0⟩ (src n) := by
      intro k hk
      have hrk : SnowFlakeIdGenerator.calc_timestamp ⟨ep, m, 0⟩ (src k) =
          ((src k).instant - ep.instant).toNat :=
        (calc_in_range ⟨ep, m, 0⟩ (src k) (hlo k) (hhi k)).1
      have h3 := hmono k n hk
      have h4 := hlo k
      rw [hrn, hrk]
      omega
    have hinv2 : (SnowFlakeIdGenerator.runGen ⟨ep, m, 0⟩ src n).recent = 0 ∨
        ∃ t s, t ≤ (SnowFlakeIdGenerator.runGen ⟨ep, m, 0⟩ src n).calc_timestamp (src n) ∧
          s ≤ 4095 ∧ (SnowFlakeIdGenerator.runGen ⟨ep, m, 0⟩ src n).recent =
            packVal t (SnowFlakeIdGenerator.runGen ⟨ep, m, 0⟩ src n).machine_id s := by
      rcases hinv with h | ⟨k, s, hk, hs, h⟩
      · exact Or.inl h
      · refine Or.inr ⟨SnowFlakeIdGenerator.calc_timestamp ⟨ep, m, 0⟩ (src k), s, ?_,
          hs, ?_⟩
        · rw [hcalc]
          exact hmono2 k (by omega)
        · rw [h, hf.2]
    rcases step_case _ (src n) (by rw [hf.2]; exact hm) hnow hinv2 with
      ⟨inc, hinc, hlt, hgen⟩ | hgen
    · have hrun : SnowFlakeIdGenerator.runGen ⟨ep, m, 0⟩ src (n + 1) =
          { SnowFlakeIdGenerator.runGen ⟨ep, m, 0⟩ src n with
            recent := (packVal
              ((SnowFlakeIdGenerator.runGen ⟨ep, m, 0⟩ src n).calc_timestamp (src n))
              (SnowFlakeIdGenerator.runGen ⟨ep, m, 0⟩ src n).machine_id inc) } := by
        simp only [SnowFlakeIdGenerator.runGen]
        exact afterGen_issued _ _ _ _ hgen
      have hids : SnowFlakeIdGenerator.issuedIds ⟨ep, m, 0⟩ src (n + 1) =
          SnowFlakeIdGenerator.issuedIds ⟨ep, m, 0⟩ src n ++
            [SnowflakeId.from_u64 (packVal
              ((SnowFlakeIdGenerator.runGen ⟨ep, m, 0⟩ src n).calc_timestamp (src n))
              (SnowFlakeIdGenerator.runGen ⟨ep, m, 0⟩ src n).machine_id inc)] := by
        simp only [SnowFlakeIdGenerator.issuedIds, hgen]
      refine ⟨?_, ?_, ?_⟩
      · right
        refine ⟨n, inc, by omega, hinc, ?_⟩
        rw [hrun]
        show packVal ((SnowFlakeIdGenerator.runGen ⟨ep, m, 0⟩ src n).calc_timestamp (src n))
          (SnowFlakeIdGenerator.runGen ⟨ep, m, 0⟩ src n).machine_id inc = _
        rw [hcalc, hf.2]
      · intro id hid
        rw [hids] at hid
        rw [hrun]
        show id.as_u64 ≤ packVal
          ((SnowFlakeIdGenerator.runGen ⟨ep, m, 0⟩ src n).calc_timestamp (src n))
          (SnowFlakeIdGenerator.runGen ⟨ep, m, 0⟩ src n).machine_id inc
        rcases List.mem_append.mp hid with h | h
        · have := hbound id h
          omega
        · rw [List.mem_singleton.mp h]
          exact Nat.le.refl
      · rw [hids, List.map_append, List.pairwise_append]
        refine ⟨hpair, by simp, ?_⟩
        intro a ha b hb
        rw [List.map_singleton, List.mem_singleton] at hb
        subst hb
        obtain ⟨id, hid, rfl⟩ := List.mem_map.mp ha
        have := hbound id hid
        show id.as_u64 < packVal
          ((SnowFlakeIdGenerator.runGen ⟨ep, m, 0⟩ src n).calc_timestamp (src n))
          (SnowFlakeIdGenerator.runGen ⟨ep, m, 0⟩ src n).machine_id inc
        omega
    · have hrun : SnowFlakeIdGenerator.runGen ⟨ep, m, 0⟩ src (n + 1) =
          SnowFlakeIdGenerator.runGen ⟨ep, m, 0⟩ src n := by
        simp only [SnowFlakeIdGenerator.runGen]
        exact afterGen_unavailable _ _ _ hgen
      have hids : SnowFlakeIdGenerator.issuedIds ⟨ep, m, 0⟩ src (n + 1) =
          SnowFlakeIdGenerator.issuedIds ⟨ep, m, 0⟩ src n := by
        simp only [SnowFlakeIdGenerator.issuedIds, hgen, List.append_nil]
      rw [hrun, hids]
      refine ⟨?_, hbound, hpair⟩
      rcases hinv with h | ⟨k, s, hk, hs, h⟩
      · exact Or.inl h
      · exact Or.inr ⟨k, s, by omega, hs, h⟩

/-- C10: under sequential calls with a non-decreasing time source whose
instants stay within the 42-bit window above the epoch, every successful
`generate` installs into the slot a value strictly greater than the value
it loaded, so the successfully issued identifiers are strictly increasing
as u64 values and pairwise distinct. -/
theorem C10_monotone_run (ep : DateTime) (m : Nat) (src : Nat → DateTime)
    (hm : m ≤ MAX_MACHINE_ID)
    (hlo : ∀ i, ep.instant ≤ (src i).instant)
    (hhi : ∀ i, (src i).instant ≤ ep.instant + (2 ^ 42 - 1))
    (hmono : ∀ i j, i ≤ j → (src i).instant ≤ (src j).instant) :
    (∀ n id g2,
      (SnowFlakeIdGenerator.runGen ⟨ep, m, 0⟩ src n).generate (src n) = .issued id g2 →
      (SnowFlakeIdGenerator.runGen ⟨ep, m, 0⟩ src n).recent < id.as_u64 ∧
        g2.recent = id.as_u64) ∧
    (∀ n, ((SnowFlakeIdGenerator.issuedIds ⟨ep, m, 0⟩ src n).map
      SnowflakeId.as_u64).Pairwise (· < ·)) ∧
    (∀ n, (SnowFlakeIdGenerator.issuedIds ⟨ep, m, 0⟩ src n).Pairwise (· ≠ ·)) := by
  have hmain := run_invariant ep m src hm hlo hhi hmono
  refine ⟨?_, fun n => (hmain n).2.2, ?_⟩
  · intro n id g2 h
    obtain ⟨hinv, hbound, hpair⟩ := hmain n
    have hf := runGen_fields (⟨ep, m, 0⟩ : SnowFlakeIdGenerator) src n
    have hcalc : (SnowFlakeIdGenerator.runGen ⟨ep, m, 0⟩ src n).calc_timestamp (src n)
        = SnowFlakeIdGenerator.calc_timestamp ⟨ep, m, 0⟩ (src n) :=
      calc_congr _ _ _ (by rw [hf.1])
    have hrn : SnowFlakeIdGenerator.calc_timestamp ⟨ep, m, 0⟩ (src n) =
        ((src n).instant - ep.instant).toNat :=
      (calc_in_range ⟨ep, m, 0⟩ (src n) (hlo n) (hhi n)).1
    have hnow : (SnowFlakeIdGenerator.runGen ⟨ep, m, 0⟩ src n).calc_timestamp (src n)
        ≤ MAX_TIMESTAMP := by
      rw [hcalc]
      exact (calc_in_range ⟨ep, m, 0⟩ (src n) (hlo n) (hhi n)).2
    have hinv2 : (SnowFlakeIdGenerator.runGen ⟨ep, m, 0⟩ src n).recent = 0 ∨
        ∃ t s, t ≤ (SnowFlakeIdGenerator.runGen ⟨ep, m, 0⟩ src n).calc_timestamp (src n) ∧
          s ≤ 4095 ∧ (SnowFlakeIdGenerator.runGen ⟨ep, m, 0⟩ src n).recent =
            packVal t (SnowFlakeIdGenerator.runGen ⟨ep, m, 0⟩ src n).machine_id s := by
      rcases hinv with h0 | ⟨k, s, hk, hs, h0⟩
      · exact Or.inl h0
      · refine Or.inr ⟨SnowFlakeIdGenerator.calc_timestamp ⟨ep, m, 0⟩ (src k), s, ?_,
          hs, ?_⟩
        · rw [hcalc]
          have hrk : SnowFlakeIdGenerator.calc_timestamp ⟨ep, m, 0⟩ (src k) =
              ((src k).instant - ep.instant).toNat :=
            (calc_in_range ⟨ep, m, 0⟩ (src k) (hlo k) (hhi k)).1
          have h3 := hmono k n (by omega)
          have h4 := hlo k
          rw [hrn, hrk]
          omega
        · rw [h0, hf.2]
    rcases step_case _ (src n) (by rw [hf.2]; exact hm) hnow hinv2 with
      ⟨inc, hinc, hlt, hgen⟩ | hgen
    · rw [h] at hgen
      injection hgen with h1 h2
      subst h1
      subst h2
      exact ⟨hlt, rfl⟩
    · rw [h] at hgen
      exact GenResult.noConfusion hgen
  · intro n
    have hp := (hmain n).2.2
    rw [List.pairwise_map] at hp
    exact hp.imp (fun hab heq => by rw [heq] at hab; exact Nat.lt_irrefl _ hab)

/-- Witness for C10: three calls against a constant in-range time source. -/
theorem C10_monotone_run_witness :
    ((SnowFlakeIdGenerator.issuedIds ⟨⟨5, 0⟩, 3, 0⟩ (fun _ => ⟨6, 0⟩) 3).map
      SnowflakeId.as_u64).Pairwise (· < ·) :=
  (C10_monotone_run ⟨5, 0⟩ 3 (fun _ => ⟨6, 0⟩) (by decide)
    (fun i => by show (5 : Int) ≤ 6; decide)
    (fun i => by show (6 : Int) ≤ 5 + (2 ^ 42 - 1); decide)
    (fun i j h => by show (6 : Int) ≤ 6; decide)).2.1 3
